import Mathlib

/-!
Shallow embedding of `src/main.py` of the crypto-dashboard repository.

The Python program is a Streamlit dashboard: an async fan-out risk-data
client (`get_risk`, `get_metrics`), a batched price client, a JWT-based
session gate (`check_user_access`, `generate_user_access`, `user_message`,
`update_state`), and a render loop (`main`) joining prices with risk
curves.

Modelling conventions:
- Numeric JSON values (prices, risk fractions, timestamps) are embedded as
  `ℚ` / `ℤ`; the code compares `exp >= int(time.time())`, so time is an
  integer number of seconds (`now : Int`).
- Fallible Python expressions are embedded in `Except Unit`; a `try/except`
  becomes a `match` on the `Except` value.
- `jwt.encode` / `jwt.decode` (external library) are modelled as an ideal
  MAC: a token records the payload it was signed over and the key used, and
  `jwt_decode` succeeds exactly when the token parses, the recorded
  signature matches the given secret and the claimed payload, and — per
  PyJWT's default `verify_exp` option — any `"exp"` claim carried by the
  token is not already expired (`ExpiredSignatureError` otherwise).  At the
  integer-second granularity of the embedding, "expired" for the library is
  `exp < now`, consistent with the explicit `exp >= int(time.time())`
  validity check in `check_user_access`.
- Streamlit session state becomes an explicit `SessionState` record passed
  through `update_state`; the `**kwargs` dict becomes a `Kwargs` record of
  optional overrides.
-/

/-- A Python string that may or may not be a well-formed JWT.
`empty` models the empty string `""` (falsy in Python, and never a valid
JWT); `malformed` models any string `jwt.decode` fails to parse;
`exp` is the `"exp"` claim when present; `sigSecret`/`sigExp` record the
key and payload the token's signature was actually computed over
(ideal-MAC model of HMAC-SHA-256). -/
structure TokenStr where
  empty : Bool
  malformed : Bool
  exp : Option Int
  sigSecret : String
  sigExp : Option Int
deriving Repr, DecidableEq

/-- `jwt.decode(token, secret, algorithms=["HS256"])`: raises on `None`,
on unparseable strings, and on signature mismatch; with the default
options it also verifies a present `"exp"` claim, raising
`ExpiredSignatureError` when it is already expired; otherwise it returns
the payload (here: the optional `exp` claim). -/
def jwt_decode (tok : Option TokenStr) (secret : String) (now : Int) :
    Except Unit (Option Int) :=
  match tok with
  | none => .error ()
  | some t =>
    if t.empty = true ∨ t.malformed = true then .error ()
    else if t.sigSecret = secret ∧ t.sigExp = t.exp then
      match t.exp with
      | none => .ok none
      | some e => if e < now then .error () else .ok (some e)
    else .error ()

/-- Streamlit session state after defaults are installed: the four keys
`update_state` guarantees to exist. -/
structure SessionState where
  user_access_token : Option TokenStr
  authenticated : Bool
  button_pressed : Bool
  callback : Bool
deriving Repr, DecidableEq

/-- Python truthiness of `st.session_state.user_access_token`
(`None` and `""` are falsy). -/
def tokenTruthy : Option TokenStr → Bool
  | none => false
  | some t => !t.empty

/-- `check_user_access` (main.py:53-65): decode the stored token inside a
`try`; on success compare `encoded_jwt["exp"] >= int(time.time())` and
return `True`, else clear the stored token (main.py:62); every exception
(decode failure — including the library's own expiry raise — and the
missing-`"exp"` `KeyError`) falls through to `return False`.  The clearing
branch is kept as in the source, but since `jwt.decode` itself already
raises on an expired token, it is unreachable
(`check_user_access_state_id` below).  Returns the boolean result together
with the resulting session state. -/
def check_user_access (s : SessionState) (secret : String) (now : Int) :
    Bool × SessionState :=
  match jwt_decode s.user_access_token secret now with
  | .error _ => (false, s)
  | .ok none => (false, s)
  | .ok (some e) =>
    if e ≥ now then (true, s)
    else (false, { s with user_access_token := none })

/-- `generate_user_access` (main.py:68-73): signs `{"exp": time.time() + 99999999}`
with the shared secret.  The function takes no time-to-live parameter; the
constant is baked in. -/
def generate_user_access (secret : String) (now : Int) : TokenStr :=
  { empty := false
    malformed := false
    exp := some (now + 99999999)
    sigSecret := secret
    sigExp := some (now + 99999999) }

/-- `user_message` (main.py:76-85): the if/elif chain deriving the status
message from the session state; `none` models emitting no message. -/
def user_message (s : SessionState) : Option String :=
  if s.authenticated && s.callback then some "Successfully Authenticated"
  else if s.authenticated then none
  else if tokenTruthy s.user_access_token && !s.callback then some "Invalid Token"
  else if !s.callback then some "Please Authenticate"
  else none

/-- The `**kwargs` of `update_state`; exactly the keys the program ever
passes (the `on_click` of the Authenticate button). -/
structure Kwargs where
  user_access_token : Option (Option TokenStr)
  button_pressed : Option Bool
  callback : Option Bool
deriving Repr, DecidableEq

/-- A call `update_state()` with no keyword arguments. -/
def emptyKwargs : Kwargs := ⟨none, none, none⟩

/-- `st.session_state.update(**kwargs)` on an already-defaulted state. -/
def apply_kwargs (kw : Kwargs) (s : SessionState) : SessionState :=
  { user_access_token := kw.user_access_token.getD s.user_access_token
    authenticated := s.authenticated
    button_pressed := kw.button_pressed.getD s.button_pressed
    callback := kw.callback.getD s.callback }

/-- Result of one `update_state` call: the new session state, the status
message emitted during the call (if any), and whether `check_user_access`
was invoked (model instrumentation recording that the validation branch
ran). -/
structure UpdateResult where
  state : SessionState
  message : Option String
  checked : Bool
deriving Repr, DecidableEq

/-- `update_state` (main.py:88-109): merge kwargs, then run
`check_user_access` exactly when
`(token and not authenticated) or (token and button_pressed)`,
then emit `user_message()` exactly when `button_pressed`, then reset the
one-shot flags `button_pressed` and `callback`. -/
def update_state (kw : Kwargs) (s : SessionState) (secret : String) (now : Int) :
    UpdateResult :=
  let s1 := apply_kwargs kw s
  let doCheck := tokenTruthy s1.user_access_token && (!s1.authenticated || s1.button_pressed)
  let s2 :=
    if doCheck then
      let r := check_user_access s1 secret now
      { r.2 with authenticated := r.1 }
    else s1
  let msg := if s2.button_pressed then user_message s2 else none
  { state := { s2 with button_pressed := false, callback := false }
    message := msg
    checked := doCheck }

/-- A risk curve: the rows of the dataframe built from `data["data"]["USD"]`,
each row a `(price, risk)` pair. -/
abbrev RiskCurve := List (ℚ × ℚ)

/-- The outcome of one per-asset risk request, as seen by `get_risk`:
the awaited call (or any later step: JSON parsing, a present `"data"` key
whose value lacks `"USD"`, a malformed row array) raises; or the JSON
parses but has no `"data"` key; or it carries the `data.USD` payload of
`[price, rawRisk]` rows. -/
inductive FetchOutcome where
  | throws
  | missingData
  | payload (rows : List (ℚ × ℚ))
deriving Repr, DecidableEq

/-- The column transform of `get_risk` (main.py:19):
`df["USD Risk"] = df["USD Risk"].multiply(100)`. -/
def scalePoint (pr : ℚ × ℚ) : ℚ × ℚ := (pr.1, pr.2 * 100)

/-- `get_risk` (main.py:13-20): on a response whose JSON has a `"data"`
key, build the dataframe and scale the risk column by 100; when the key is
absent fall off the `if` and return `None`; any raised exception
propagates to the caller (`get_risk` has no handler). -/
def get_risk : FetchOutcome → Except Unit (Option RiskCurve)
  | .throws => .error ()
  | .missingData => .ok none
  | .payload rows => .ok (some (rows.map scalePoint))

/-- `await asyncio.gather(*tasks)` without `return_exceptions=True`: if
every task succeeds, the results in task order; if any task raises, the
`await` re-raises (the first exception). -/
def gatherE : List (Except Unit (Option RiskCurve)) →
    Except Unit (List (Option RiskCurve))
  | [] => .ok []
  | r :: rs =>
    match r with
    | .error e => .error e
    | .ok a =>
      match gatherE rs with
      | .error e => .error e
      | .ok l => .ok (a :: l)

/-- `get_metrics` (main.py:23-38): read the secrets (modelled by
`secretsOk`; a missing secret raises before any request is issued), fan
out one `get_risk` task per name, `gather` them, and catch every
exception of the whole `try` block by returning `[]`. -/
def get_metrics (secretsOk : Bool) (outcomes : List FetchOutcome) :
    List (Option RiskCurve) :=
  if secretsOk then
    match gatherE (outcomes.map get_risk) with
    | .ok charts => charts
    | .error _ => []
  else []

/-- The URLs `get_metrics` issues GETs for: `base_url + name` for each
name, and none at all when the secrets lookup raises first — or when
`main` (main.py:118) skips the call because the session is not
authenticated. -/
def risk_request_urls (authenticated secretsOk : Bool) (base_url : String)
    (ids : List String) : List String :=
  if authenticated then
    if secretsOk then ids.map (fun n => base_url ++ n) else []
  else []

/-- One entry of the price provider's JSON: `{usd, usd_24h_change}`. -/
structure PriceQuote where
  usd : ℚ
  usd_24h_change : ℚ
deriving Repr, DecidableEq

/-- The price response, a JSON object: keys may be absent entirely
(`none` from `lookup`), or present but mapped to an empty — falsy —
object (`some none`). -/
abbrev PriceData := List (String × Option PriceQuote)

/-- The per-asset join result fed to the renderer: the quote plus the
matched risk point `(price, riskPct)` when one is shown. -/
structure DisplayRecord where
  assetId : String
  priceUsd : ℚ
  change24h : ℚ
  matchedRisk : Option (ℚ × ℚ)
deriving Repr, DecidableEq

/-- The ascending index list `df.index[df["Price"] <= q].tolist()`. -/
def matchingIndices (c : RiskCurve) (q : ℚ) : List Nat :=
  (List.range c.length).filter (fun i => decide ((c.getD i (0, 0)).1 ≤ q))

/-- `max(...)` over the matching indices; `none` models the `ValueError`
Python's `max` raises on an empty sequence. -/
def matchIndex (c : RiskCurve) (q : ℚ) : Option Nat :=
  (matchingIndices c q).max?

/-- The chart branch of `main`'s per-coin body (main.py:134-154):
`charts` falsy → both branches skipped; `charts[i]` raises `IndexError`
out of range; with a present curve and an authenticated session, select
`max(df.index[df["Price"] <= usd])` — raising when the selection is
empty — and display the row at that index; a `None` slot shows
"No Chart Data" (no matched risk). -/
def matchedRiskFor (authenticated : Bool) (charts : List (Option RiskCurve))
    (i : Nat) (q : ℚ) : Except Unit (Option (ℚ × ℚ)) :=
  match charts with
  | [] => .ok none
  | _ :: _ =>
    match charts.get? i with
    | none => .error ()
    | some slot =>
      if authenticated then
        match slot with
        | some c =>
          match matchIndex c q with
          | none => .error ()
          | some j => .ok (some (c.getD j (0, 0)))
        | none => .ok none
      else .ok none

/-- One iteration of `main`'s render loop (main.py:124-154) for coin `i`:
`api_data[coin]` raises `KeyError` when the key is absent; a falsy quote
hits `continue` (no record); otherwise render the price metric and the
chart branch. -/
def renderAsset (authenticated : Bool) (charts : List (Option RiskCurve))
    (apiData : PriceData) (i : Nat) (coin : String) :
    Except Unit (Option DisplayRecord) :=
  match apiData.lookup coin with
  | none => .error ()
  | some none => .ok none
  | some (some pq) =>
    match matchedRiskFor authenticated charts i pq.usd with
    | .error e => .error e
    | .ok mr =>
      .ok (some { assetId := coin, priceUsd := pq.usd
                  change24h := pq.usd_24h_change, matchedRisk := mr })

/-- The render loop from position `i` on: the first raised exception
aborts the whole cycle; skipped coins contribute nothing. -/
def renderFrom (authenticated : Bool) (charts : List (Option RiskCurve))
    (apiData : PriceData) : Nat → List String → Except Unit (List DisplayRecord)
  | _, [] => .ok []
  | i, coin :: rest =>
    match renderAsset authenticated charts apiData i coin with
    | .error e => .error e
    | .ok none => renderFrom authenticated charts apiData (i + 1) rest
    | .ok (some rec) =>
      match renderFrom authenticated charts apiData (i + 1) rest with
      | .error e => .error e
      | .ok l => .ok (rec :: l)

/-- One render cycle of `main` after `update_state` (main.py:118-154):
`charts = await get_metrics(ids) if st.session_state.authenticated else []`,
then the per-coin loop over the catalog ids. -/
def renderAll (authenticated secretsOk : Bool) (outcomes : List FetchOutcome)
    (ids : List String) (apiData : PriceData) : Except Unit (List DisplayRecord) :=
  let charts := if authenticated then get_metrics secretsOk outcomes else []
  renderFrom authenticated charts apiData 0 ids

/-- C10: every token produced by `generate_user_access` carries an expiry
of exactly its issuance time plus 99999999 seconds (the function takes no
TTL parameter — its Lean signature, like the Python one, has only the
secret and the clock), and such a fresh token immediately validates. -/
theorem c10_fixed_ttl (secret : String) (now : Int) :
    (generate_user_access secret now).exp = some (now + 99999999) ∧
    (check_user_access ⟨some (generate_user_access secret now), false, false, false⟩
        secret now).1 = true := by
  refine ⟨rfl, ?_⟩
  have h1 : ¬((now : Int) + 99999999 < now) := by omega
  have h2 : (now : Int) + 99999999 ≥ now := by omega
  simp [check_user_access, jwt_decode, generate_user_access, h1, h2]

/-- C2: token validation is total (the embedding of the `try/except` in
`check_user_access` returns a `Bool`, never an exception), and: a parse
error yields invalid; a tampered signature yields invalid regardless of
the claimed expiry; a correctly signed token with no `"exp"` claim yields
invalid; and a structurally valid, correctly signed token is valid exactly
when its expiry is at least the current time in seconds. -/
theorem c2_validate_fails_closed (t : TokenStr) (secret : String) (now : Int)
    (s : SessionState) (hs : s.user_access_token = some t) :
    ((t.malformed = true ∨ t.empty = true) →
      (check_user_access s secret now).1 = false) ∧
    (¬(t.sigSecret = secret ∧ t.sigExp = t.exp) →
      (check_user_access s secret now).1 = false) ∧
    (t.exp = none → (check_user_access s secret now).1 = false) ∧
    (∀ e : Int, t.empty = false → t.malformed = false → t.sigSecret = secret →
      t.sigExp = t.exp → t.exp = some e →
      ((check_user_access s secret now).1 = true ↔ now ≤ e)) := by
  refine ⟨?_, ?_, ?_, ?_⟩
  · rintro (hm | hm) <;> simp [check_user_access, jwt_decode, hs, hm]
  · intro hsig
    by_cases h1 : t.empty = true ∨ t.malformed = true
    · simp [check_user_access, jwt_decode, hs, h1]
    · simp [check_user_access, jwt_decode, hs, h1, hsig]
  · intro hexp
    by_cases h1 : t.empty = true ∨ t.malformed = true
    · simp [check_user_access, jwt_decode, hs, h1]
    · by_cases h2 : t.sigSecret = secret ∧ t.sigExp = t.exp
      · simp [check_user_access, jwt_decode, hs, h1, h2, hexp]
      · simp [check_user_access, jwt_decode, hs, h1, h2]
  · intro e hem hmal hsec hsig hexp
    by_cases hle : now ≤ e
    · have hnl : ¬e < now := not_lt.mpr hle
      simp [check_user_access, jwt_decode, hs, hem, hmal, hsec, hsig, hexp, hnl,
        ge_iff_le, hle]
    · have hlt : e < now := not_le.mp hle
      simp [check_user_access, jwt_decode, hs, hem, hmal, hsec, hsig, hexp, hlt,
        hle]

/-- Closed instance of `c2_validate_fails_closed`: a correctly signed
token with expiry 100 validates at time 50. -/
theorem c2_witness :
    (check_user_access ⟨some ⟨false, false, some 100, "k", some 100⟩, false, false, false⟩
        "k" 50).1 = true :=
  ((c2_validate_fails_closed ⟨false, false, some 100, "k", some 100⟩ "k" 50
      ⟨some ⟨false, false, some 100, "k", some 100⟩, false, false, false⟩ rfl).2.2.2
    100 rfl rfl rfl rfl rfl).mpr (by norm_num)

/-- `jwt.decode` returns an `"exp"` claim only when it is unexpired: with
the default `verify_exp` option an expired claim raises
`ExpiredSignatureError` inside the decode itself. -/
theorem jwt_decode_ok_some_unexpired (tok : Option TokenStr) (secret : String)
    (now : Int) (e : Int) (h : jwt_decode tok secret now = .ok (some e)) :
    now ≤ e := by
  cases tok with
  | none => simp [jwt_decode] at h
  | some t =>
    by_cases h1 : t.empty = true ∨ t.malformed = true
    · simp [jwt_decode, h1] at h
    · by_cases h2 : t.sigSecret = secret ∧ t.sigExp = t.exp
      · cases hexp : t.exp with
        | none => simp [jwt_decode, h1, h2, hexp] at h
        | some e0 =>
          by_cases hlt : e0 < now
          · simp [jwt_decode, h1, h2, hexp, hlt] at h
          · simp [jwt_decode, h1, h2, hexp, hlt] at h
            omega
      · simp [jwt_decode, h1, h2] at h

/-- `check_user_access` never mutates the session state: the token-clearing
branch embedding main.py:62 is unreachable, because an expired token
already fails inside `jwt.decode` and lands in the `except` instead. -/
theorem check_user_access_state_id (s : SessionState) (secret : String)
    (now : Int) :
    (check_user_access s secret now).2 = s := by
  unfold check_user_access
  cases hd : jwt_decode s.user_access_token secret now with
  | error e => rfl
  | ok oe =>
    cases oe with
    | none => rfl
    | some e =>
      have hle := jwt_decode_ok_some_unexpired _ _ _ _ hd
      simp [ge_iff_le, hle]

/-- C3 fails on the code: on a render cycle with a stored malformed token,
`update_state` leaves the session unauthenticated but does NOT clear the
stored token to `None` — the `except` branch of `check_user_access` skips
the clearing line. -/
theorem c3_counterexample :
    (update_state emptyKwargs
        ⟨some ⟨false, true, some 99, "k", some 99⟩, false, false, false⟩ "k"
        0).state.user_access_token ≠ none ∧
    (update_state emptyKwargs
        ⟨some ⟨false, true, some 99, "k", some 99⟩, false, false, false⟩ "k"
        0).state.authenticated = false := by
  decide

/-- C3 amended: on a render cycle where the stored token is truthy, the
session is not yet authenticated, and validation fails, the session ends
unauthenticated — and the stored token is NEVER cleared: malformed and
wrongly signed tokens take the `except` path, and an expired token already
raises inside `jwt.decode`, so the clearing line (main.py:62) is
unreachable and the token survives every validation failure. -/
theorem c3_amended (s : SessionState) (secret : String) (now : Int)
    (htok : tokenTruthy s.user_access_token = true)
    (hauth : s.authenticated = false)
    (hfail : (check_user_access s secret now).1 = false) :
    (update_state emptyKwargs s secret now).state.authenticated = false ∧
    (update_state emptyKwargs s secret now).state.user_access_token =
      s.user_access_token := by
  have hkw : apply_kwargs emptyKwargs s = s := rfl
  have hid : (check_user_access s secret now).2 = s :=
    check_user_access_state_id s secret now
  refine ⟨?_, ?_⟩ <;> simp [update_state, hkw, htok, hauth, hfail, hid]

/-- Closed instance of `c3_amended`: even a correctly signed but EXPIRED
token (expiry 5, clock 10) is rejected without clearing the stored token —
the expiry failure happens inside `jwt.decode`, bypassing the clearing
line. -/
theorem c3_amended_witness :
    (update_state emptyKwargs
        ⟨some ⟨false, false, some 5, "w", some 5⟩, false, false, false⟩ "w"
        10).state.authenticated = false ∧
    (update_state emptyKwargs
        ⟨some ⟨false, false, some 5, "w", some 5⟩, false, false, false⟩ "w"
        10).state.user_access_token = some ⟨false, false, some 5, "w", some 5⟩ :=
  c3_amended ⟨some ⟨false, false, some 5, "w", some 5⟩, false, false, false⟩ "w" 10
    rfl rfl (by decide)

/-- A call to `update_state` on a cycle with `button_pressed` false emits
no status message (main.py:105-106 gates `user_message()` on
`button_pressed`). -/
theorem update_state_message_gate (kw : Kwargs) (s : SessionState) (secret : String)
    (now : Int) (h : (apply_kwargs kw s).button_pressed = false) :
    (update_state kw s secret now).message = none := by
  have hp : (check_user_access (apply_kwargs kw s) secret now).2.button_pressed =
      (apply_kwargs kw s).button_pressed := by
    rw [check_user_access_state_id]
  simp only [update_state]
  split
  · simp [hp, h]
  · simp [h]

/-- C8 amended: the message derivation of `user_message` is:
"Successfully Authenticated" iff authenticated with the user-initiated
callback flag set; silent iff authenticated without it — but also silent
when a user-initiated submission was just rejected (`callback` true,
unauthenticated), since the "Invalid Token" branch requires `callback`
false; "Invalid Token" iff unauthenticated with a truthy stored token and
no callback; "Please Authenticate" iff unauthenticated with no truthy
token and no callback.  Moreover `update_state` emits a message only on
cycles where `button_pressed` is set. -/
theorem c8_amended (s : SessionState) :
    (user_message s = some "Successfully Authenticated" ↔
      s.authenticated = true ∧ s.callback = true) ∧
    (user_message s = some "Invalid Token" ↔
      s.authenticated = false ∧ s.callback = false ∧
        tokenTruthy s.user_access_token = true) ∧
    (user_message s = some "Please Authenticate" ↔
      s.authenticated = false ∧ s.callback = false ∧
        tokenTruthy s.user_access_token = false) ∧
    (user_message s = none ↔
      (s.authenticated = true ∧ s.callback = false) ∨
      (s.authenticated = false ∧ s.callback = true)) ∧
    (∀ kw secret now, (apply_kwargs kw s).button_pressed = false →
      (update_state kw s secret now).message = none) := by
  obtain ⟨stok, sauth, sbtn, scb⟩ := s
  refine ⟨?_, ?_, ?_, ?_, fun kw secret now h => update_state_message_gate kw _ secret now h⟩ <;>
    cases sauth <;> cases scb <;>
      cases htt : tokenTruthy stok <;> simp +decide [user_message, htt]

/-- C8 fails on the code: a user-initiated token submission that is
rejected (token stored, validation fails, `callback` set) emits NO message
on that cycle — not "Invalid Token" — because the "Invalid Token" branch
of `user_message` requires `callback` to be false. -/
theorem c8_counterexample :
    (update_state ⟨some (some ⟨false, true, none, "q", none⟩), some true, some true⟩
        ⟨none, false, false, false⟩ "q" 7).message = none ∧
    (update_state ⟨some (some ⟨false, true, none, "q", none⟩), some true, some true⟩
        ⟨none, false, false, false⟩ "q" 7).state.authenticated = false := by
  decide

/-- Closed instance of `c8_amended`: with a stored (rejected) token and no
callback the message is "Invalid Token", and with `button_pressed` false
no message is emitted at all. -/
theorem c8_amended_witness :
    user_message ⟨some ⟨false, false, some 3, "z", some 3⟩, false, false, false⟩ =
      some "Invalid Token" ∧
    (update_state emptyKwargs
        ⟨some ⟨false, false, some 3, "z", some 3⟩, false, false, false⟩ "z"
        9).message = none :=
  ⟨(c8_amended ⟨some ⟨false, false, some 3, "z", some 3⟩, false, false, false⟩).2.1.mpr
      ⟨rfl, rfl, rfl⟩,
   (c8_amended ⟨some ⟨false, false, some 3, "z", some 3⟩, false, false, false⟩).2.2.2.2
      emptyKwargs "z" 9 rfl⟩

/-- C9: `update_state` invokes `check_user_access` only when a truthy
token is stored and the session is unauthenticated or the button was
pressed; consequently an authenticated session with no button press is
never re-validated — its result does not depend on the clock or secret at
all, so it stays authenticated even after the token's expiry passes. -/
theorem c9_no_revalidation (kw : Kwargs) (s : SessionState) (secret secret2 : String)
    (now now2 : Int) :
    ((update_state kw s secret now).checked = true →
      tokenTruthy (apply_kwargs kw s).user_access_token = true ∧
      ((apply_kwargs kw s).authenticated = false ∨
        (apply_kwargs kw s).button_pressed = true)) ∧
    ((apply_kwargs kw s).authenticated = true →
      (apply_kwargs kw s).button_pressed = false →
      (update_state kw s secret now).checked = false ∧
      (update_state kw s secret now).state.authenticated = true ∧
      update_state kw s secret now = update_state kw s secret2 now2) := by
  constructor
  · intro h
    simp only [update_state, Bool.and_eq_true, Bool.or_eq_true,
      Bool.not_eq_true'] at h
    exact ⟨h.1, h.2⟩
  · intro hauth hbtn
    have hd : (tokenTruthy (apply_kwargs kw s).user_access_token &&
        (!(apply_kwargs kw s).authenticated ||
          (apply_kwargs kw s).button_pressed)) = false := by
      rw [hauth, hbtn]
      simp
    refine ⟨?_, ?_, ?_⟩ <;> simp [update_state, hd, hauth, hbtn]

/-- Closed instance of `c9_no_revalidation`: an authenticated session with
a token whose expiry (0) is long past at clock 999999999 is not
re-checked and remains authenticated; the whole update result is
identical under the far-future clock and a different secret. -/
theorem c9_witness :
    (update_state emptyKwargs
        ⟨some ⟨false, false, some 0, "a", some 0⟩, true, false, false⟩ "a"
        5).checked = false ∧
    (update_state emptyKwargs
        ⟨some ⟨false, false, some 0, "a", some 0⟩, true, false, false⟩ "a"
        5).state.authenticated = true ∧
    update_state emptyKwargs
        ⟨some ⟨false, false, some 0, "a", some 0⟩, true, false, false⟩ "a" 5 =
      update_state emptyKwargs
        ⟨some ⟨false, false, some 0, "a", some 0⟩, true, false, false⟩ "b"
        999999999 :=
  (c9_no_revalidation emptyKwargs
    ⟨some ⟨false, false, some 0, "a", some 0⟩, true, false, false⟩ "a" "b" 5
    999999999).2 rfl rfl

/-- The per-asset slot the spec describes for a non-throwing fetch:
`null` when the response lacks the `"data"` field, otherwise the scaled
curve.  (Spec-side description, compared against `get_metrics` below.) -/
def specRiskSlot : FetchOutcome → Option RiskCurve
  | .payload rows => some (rows.map scalePoint)
  | _ => none

/-- When no task raises, the gather of the mapped `get_risk` results is
the slot list in input order. -/
theorem gatherE_no_throw (outcomes : List FetchOutcome)
    (h : FetchOutcome.throws ∉ outcomes) :
    gatherE (outcomes.map get_risk) = .ok (outcomes.map specRiskSlot) := by
  induction outcomes with
  | nil => rfl
  | cons o rest ih =>
    have ho : o ≠ FetchOutcome.throws := fun hc => h (hc ▸ List.mem_cons_self o rest)
    have hrest : FetchOutcome.throws ∉ rest := fun hc => h (List.mem_cons_of_mem o hc)
    have hget : get_risk o = .ok (specRiskSlot o) := by
      cases o with
      | throws => exact absurd rfl ho
      | missingData => rfl
      | payload rows => rfl
    simp only [List.map_cons, gatherE, hget, ih hrest]

/-- C1 fails on the code: `get_metrics` gathers without
`return_exceptions`, so one throwing fetch makes `await asyncio.gather`
re-raise and the `except` returns `[]` — for inputs `[A, B, C]` with B
forced to throw, the result is the empty sequence, not
`[curveA, null, curveC]`, and its length is 0, not 3. -/
theorem c1_counterexample :
    get_metrics true
        [.payload [(1, 1)], .throws, .payload [(2, 2)]] = [] ∧
    (get_metrics true
        [.payload [(1, 1)], .throws, .payload [(2, 2)]]).length ≠ 3 := by
  refine ⟨rfl, ?_⟩
  decide

/-- C1 amended: when the setup succeeds and NO per-asset fetch throws, the
returned sequence has exactly one slot per input asset in input order —
`null` where the response lacks the `"data"` field, the scaled curve
otherwise.  (If any fetch throws, or setup fails, the whole call instead
returns the empty sequence.) -/
theorem c1_amended (outcomes : List FetchOutcome)
    (h : FetchOutcome.throws ∉ outcomes) :
    (get_metrics true outcomes).length = outcomes.length ∧
    get_metrics true outcomes = outcomes.map specRiskSlot := by
  have hg := gatherE_no_throw outcomes h
  constructor
  · simp [get_metrics, hg]
  · simp [get_metrics, hg]

/-- Closed instance of `c1_amended`: a two-asset batch with one payload
and one missing-data response keeps both slots, in order. -/
theorem c1_amended_witness :
    (get_metrics true [.payload [(3, 1)], .missingData]).length = 2 ∧
    get_metrics true [.payload [(3, 1)], .missingData] = [some [(3, 100)], none] := by
  have h := c1_amended [FetchOutcome.payload [(3, 1)], FetchOutcome.missingData]
    (by decide)
  refine ⟨h.1, ?_⟩
  rw [h.2]
  simp [specRiskSlot, scalePoint]

/-- `getD` at an in-bounds index is the indexed element. -/
theorem getD_eq_elem {α : Type} (l : List α) (d : α) {n : Nat} (h : n < l.length) :
    l.getD n d = l[n] := by
  rw [List.getD_eq_getElem?_getD, List.getElem?_eq_getElem h, Option.getD_some]

/-- Membership in the selected index list of the matching step. -/
theorem mem_matchingIndices (c : RiskCurve) (q : ℚ) (k : Nat) :
    k ∈ matchingIndices c q ↔ k < c.length ∧ (c.getD k (0, 0)).1 ≤ q := by
  simp [matchingIndices, List.mem_filter, List.mem_range]

/-- C4 fails on the code: an authenticated asset with a present, non-empty
risk curve whose single price 60000 exceeds the current price 50000 makes
the render cycle raise (`max()` of an empty index selection), rather than
degrade to a "No Chart Data" display. -/
theorem c4_counterexample :
    renderAll true true [.payload [(60000, 3)]] ["bitcoin"]
      [("bitcoin", some ⟨50000, 2⟩)] = .error () := rfl

/-- C4 amended: whenever the predicate `price ≤ current` selects no curve
point (all prices above the current price), the index selection is empty,
`max()` raises, and the per-asset chart step aborts the render cycle with
an error instead of displaying the asset without a matched risk. -/
theorem c4_amended (c : RiskCurve) (q : ℚ) (_hne : c ≠ [])
    (hall : ∀ p ∈ c, q < p.1) :
    matchIndex c q = none ∧
    ∀ (charts : List (Option RiskCurve)) (i : Nat),
      charts.get? i = some (some c) → matchedRiskFor true charts i q = .error () := by
  have hmi : matchingIndices c q = [] := by
    unfold matchingIndices
    rw [List.filter_eq_nil_iff]
    intro a ha
    rw [List.mem_range] at ha
    simp only [decide_eq_true_eq, not_le]
    rw [getD_eq_elem _ _ ha]
    exact hall _ (List.getElem_mem ha)
  have hnone : matchIndex c q = none := by
    rw [matchIndex, hmi]
    rfl
  refine ⟨hnone, ?_⟩
  intro charts i hi
  cases charts with
  | nil => simp at hi
  | cons ch rest =>
    have hch : (ch :: rest).get? i = some (some c) := hi
    simp [matchedRiskFor, List.get?_eq_getElem?] at hch ⊢
    simp [hch, hnone]

/-- Closed instance of `c4_amended`: a one-point curve at price 70000 with
current price 50000 has an empty selection and the chart step errors. -/
theorem c4_amended_witness :
    matchIndex [((70000 : ℚ), (40 : ℚ))] 50000 = none ∧
    matchedRiskFor true [some [((70000 : ℚ), (40 : ℚ))]] 0 50000 = .error () :=
  ⟨(c4_amended [((70000 : ℚ), (40 : ℚ))] 50000 (by decide) (by decide)).1,
   (c4_amended [((70000 : ℚ), (40 : ℚ))] 50000 (by decide) (by decide)).2
     [some [((70000 : ℚ), (40 : ℚ))]] 0 rfl⟩

/-- C7 fails on the code: a successful price response that contains no
entry at all for the asset (`"bitcoin"` absent from the JSON object) makes
`api_data[coin]` raise `KeyError`, aborting the render cycle instead of
skipping the asset. -/
theorem c7_counterexample :
    renderAll true true [] ["bitcoin"] [] = .error () := rfl

/-- C7 amended: an asset whose key IS present in the price response but
maps to an empty (falsy) quote object is skipped entirely — no
`DisplayRecord`, no failure; an entirely absent key instead raises
`KeyError` and fails the cycle. -/
theorem c7_amended (authenticated : Bool) (charts : List (Option RiskCurve))
    (apiData : PriceData) (i : Nat) (coin : String)
    (h : apiData.lookup coin = some none) :
    renderAsset authenticated charts apiData i coin = .ok none := by
  simp [renderAsset, h]

/-- Closed instance of `c7_amended`: a key present with an empty quote is
skipped without error. -/
theorem c7_amended_witness :
    renderAsset true [] [("dogecoin", none)] 0 "dogecoin" = .ok none :=
  c7_amended true [] [("dogecoin", none)] 0 "dogecoin" rfl

/-- In an unauthenticated cycle `charts` is `[]`, so every record the loop
emits has no matched risk. -/
theorem renderFrom_unauth_no_risk (apiData : PriceData) :
    ∀ (ids : List String) (i : Nat) (recs : List DisplayRecord),
      renderFrom false [] apiData i ids = .ok recs →
      ∀ r ∈ recs, r.matchedRisk = none := by
  intro ids
  induction ids with
  | nil =>
    intro i recs h r hr
    simp only [renderFrom] at h
    cases h
    simp at hr
  | cons coin rest ih =>
    intro i recs h r hr
    cases hl : apiData.lookup coin with
    | none => simp [renderFrom, renderAsset, hl] at h
    | some opq =>
      cases opq with
      | none =>
        simp only [renderFrom, renderAsset, hl] at h
        exact ih (i + 1) recs h r hr
      | some pq =>
        simp only [renderFrom, renderAsset, hl, matchedRiskFor] at h
        cases hrest : renderFrom false [] apiData (i + 1) rest with
        | error e => rw [hrest] at h; cases h
        | ok l =>
          rw [hrest] at h
          cases h
          rcases List.mem_cons.mp hr with hhead | htail
          · rw [hhead]
          · exact ih (i + 1) l hrest r htail

/-- C5: in an unauthenticated render cycle no request is issued to the
risk provider (the `get_metrics` call is skipped, so its request list is
empty), and every emitted `DisplayRecord` carries no matched risk. -/
theorem c5_unauthenticated_no_risk (secretsOk : Bool) (outcomes : List FetchOutcome)
    (base_url : String) (ids : List String) (apiData : PriceData)
    (recs : List DisplayRecord)
    (h : renderAll false secretsOk outcomes ids apiData = .ok recs) :
    risk_request_urls false secretsOk base_url ids = [] ∧
    ∀ r ∈ recs, r.matchedRisk = none := by
  refine ⟨rfl, ?_⟩
  have h2 : renderFrom false [] apiData 0 ids = .ok recs := h
  exact renderFrom_unauth_no_risk apiData ids 0 recs h2

/-- Closed instance of `c5_unauthenticated_no_risk`: the spec's two-asset
scenario — both records rendered, neither with a matched risk, no risk
request URL built. -/
theorem c5_witness :
    risk_request_urls false true "u" ["bitcoin", "ethereum"] = [] ∧
    ∀ r ∈ [({ assetId := "bitcoin", priceUsd := 50000, change24h := 2,
              matchedRisk := none } : DisplayRecord),
           { assetId := "ethereum", priceUsd := 3000, change24h := -1,
             matchedRisk := none }], r.matchedRisk = none :=
  c5_unauthenticated_no_risk true [] "u" ["bitcoin", "ethereum"]
    [("bitcoin", some ⟨50000, 2⟩), ("ethereum", some ⟨3000, -1⟩)]
    [⟨"bitcoin", 50000, 2, none⟩, ⟨"ethereum", 3000, -1, none⟩] rfl

/-- C6: whenever the matching step on a stored (scaled) curve selects an
index, (a) the stored curve holds, at every position, the raw price
unchanged and the raw risk multiplied by 100; (b) the selected entry's
price is at most the current price; (c) the selected index is the MAXIMUM
index whose price satisfies the predicate (index-order maximum, not
value maximum); and (d) the chart step displays exactly that entry. -/
theorem c6_matched_point (raw : List (ℚ × ℚ)) (q : ℚ) (i : Nat)
    (h : matchIndex (raw.map scalePoint) q = some i) :
    i < raw.length ∧
    (∀ j, j < raw.length →
      (raw.map scalePoint).getD j (0, 0) =
        ((raw.getD j (0, 0)).1, (raw.getD j (0, 0)).2 * 100)) ∧
    (raw.getD i (0, 0)).1 ≤ q ∧
    (∀ j, j < raw.length → (raw.getD j (0, 0)).1 ≤ q → j ≤ i) ∧
    matchedRiskFor true [some (raw.map scalePoint)] 0 q =
      .ok (some ((raw.getD i (0, 0)).1, (raw.getD i (0, 0)).2 * 100)) := by
  have hlen : (raw.map scalePoint).length = raw.length := List.length_map raw scalePoint
  have hgetD : ∀ j, j < raw.length →
      (raw.map scalePoint).getD j (0, 0) =
        ((raw.getD j (0, 0)).1, (raw.getD j (0, 0)).2 * 100) := by
    intro j hj
    have hj2 : j < (raw.map scalePoint).length := by rw [hlen]; exact hj
    rw [getD_eq_elem _ _ hj2, getD_eq_elem _ _ hj, List.getElem_map]
    rfl
  have hm := List.max?_eq_some_iff'.mp h
  have hmem := (mem_matchingIndices _ q i).mp hm.1
  have hi : i < raw.length := by rw [← hlen]; exact hmem.1
  have hprice : (raw.getD i (0, 0)).1 ≤ q := by
    have hp := hmem.2
    rw [hgetD i hi] at hp
    exact hp
  refine ⟨hi, hgetD, hprice, ?_, ?_⟩
  · intro j hj hle
    refine hm.2 j ((mem_matchingIndices _ q j).mpr ⟨by rw [hlen]; exact hj, ?_⟩)
    rw [hgetD j hj]
    exact hle
  · have hrfl : matchedRiskFor true [some (raw.map scalePoint)] 0 q =
        match matchIndex (raw.map scalePoint) q with
        | none => Except.error ()
        | some j => Except.ok (some ((raw.map scalePoint).getD j (0, 0))) := rfl
    rw [hrfl, h]
    exact congrArg (fun p => Except.ok (some p)) (hgetD i hi)

/-- Closed instance of `c6_matched_point`: the spec scenario — raw curve
`[[40000, 0.1], [60000, 0.3]]`, current price 50000 — matches the entry at
index 0: price 40000, riskPct 10. -/
theorem c6_witness :
    matchedRiskFor true
        [some ([((40000 : ℚ), (1 : ℚ) / 10), (60000, 3 / 10)].map scalePoint)] 0
        50000 = .ok (some (40000, 10)) := by
  have h := c6_matched_point [((40000 : ℚ), (1 : ℚ) / 10), (60000, 3 / 10)] 50000 0
    (by decide)
  rw [h.2.2.2.2]
  norm_num [List.getD_cons_zero]
